/-
Verification of the benchmark-and-report pipeline of run_all_benchmarks.py
(ai-workstation-bootstrap). Python floats are modelled as exact rationals,
Python ints as integers (naturals where the source only produces naturals),
and fallible operations (division by zero, min/max of an empty list) as
Except-valued functions. Host/runtime facts that the script merely queries
(torch availability flags, psutil probes, the wall clock) are passed in as
explicit environment records, so every definition is executable.
-/
import Mathlib

namespace Bench

/-- Descriptor of one detected accelerator, mirroring the GPUInfo dataclass:
name, optional memory capacity in GB, optional capability string. -/
structure GPUInfo where
  name : String
  memory_gb : Option ℚ
  capability : Option String
  deriving DecidableEq, Repr

/-- Ambient torch runtime facts consulted by the script: whether
torch.cuda.is_available() returns true, whether torch.backends has an mps
attribute (the hasattr checks at lines 122 and 172), what
torch.backends.mps.is_available() returns, and the outcome of enumerating
cuda device properties — the descriptors appended before an exception, and
the exception message if the loop raised partway (none = completed). -/
structure TorchEnv where
  cuda_available : Bool
  mps_attr : Bool
  mps_available : Bool
  cuda_enum : List GPUInfo × Option String

/-- Model of Python str.lower() — per-character lowercasing (exact for the
ASCII device names this program handles). -/
def py_lower (s : String) : String := String.mk (s.data.map Char.toLower)

/-- Translation of pick_device: lower-case the preference; any value other
than "auto" is handed to torch.device unchanged; "auto" probes cuda, then
mps, then falls back to cpu. -/
def pick_device (env : TorchEnv) (pref : String) : String :=
  let pref := py_lower pref
  if pref ≠ "auto" then pref
  else if env.cuda_available then "cuda"
  else if env.mps_attr && env.mps_available then "mps"
  else "cpu"

/-- Claim C5: when the device preference is "auto", device resolution picks
the first available device in the fixed priority order cuda, then mps, then
cpu; in particular, with neither accelerator available the resolved device
is cpu. -/
theorem C5_auto_priority (env : TorchEnv) :
    (env.cuda_available = true → pick_device env "auto" = "cuda") ∧
    (env.cuda_available = false → env.mps_attr = true → env.mps_available = true →
      pick_device env "auto" = "mps") ∧
    (env.cuda_available = false → (env.mps_attr = false ∨ env.mps_available = false) →
      pick_device env "auto" = "cpu") := by
  obtain ⟨c, ma, mv, _⟩ := env
  have hlow : py_lower "auto" = "auto" := rfl
  refine ⟨fun hc => ?_, fun hc hma hmv => ?_, fun hc hm => ?_⟩
  · simp_all [pick_device, hlow]
  · simp_all [pick_device, hlow]
  · rcases hm with h | h <;> simp_all [pick_device, hlow]

/-- Witness for C5 at a concrete accelerator-free environment. -/
theorem C5_auto_priority_witness :
    pick_device ⟨false, false, false, ([], none)⟩ "auto" = "cpu" :=
  (C5_auto_priority ⟨false, false, false, ([], none)⟩).2.2 rfl (Or.inl rfl)

/-- Claim C10: for every preference other than "auto", resolution returns
the lower-cased preference unconditionally — the result never depends on
availability and never falls back to another device. -/
theorem C10_explicit_pref_unchecked (env env' : TorchEnv) (pref : String)
    (h : py_lower pref ≠ "auto") :
    pick_device env pref = py_lower pref ∧ pick_device env pref = pick_device env' pref := by
  constructor <;> simp [pick_device, h]

/-- Witness for C10: requesting "CUDA" in an accelerator-free environment
still resolves to "cuda", identically to a cuda-capable environment. -/
theorem C10_explicit_pref_unchecked_witness :
    pick_device ⟨false, false, false, ([], none)⟩ "CUDA" = "cuda" ∧
    pick_device ⟨false, false, false, ([], none)⟩ "CUDA" =
      pick_device ⟨true, true, true, ([], none)⟩ "CUDA" :=
  C10_explicit_pref_unchecked _ _ "CUDA" (by decide)

/-- Python float division, which raises ZeroDivisionError on a zero
divisor. -/
def pyDiv (a b : ℚ) : Except String ℚ :=
  if b = 0 then .error "ZeroDivisionError" else .ok (a / b)

/-- Python builtin min over a float list: ValueError on the empty list,
otherwise the left fold of binary minimum over the remaining elements. -/
def pyMin : List ℚ → Except String ℚ
  | [] => .error "ValueError"
  | x :: rest => .ok (rest.foldl min x)

/-- Python builtin max over a float list, dual to pyMin. -/
def pyMax : List ℚ → Except String ℚ
  | [] => .error "ValueError"
  | x :: rest => .ok (rest.foldl max x)

/-- Python builtin sum over a float list. -/
def listSum (xs : List ℚ) : ℚ := xs.foldl (· + ·) 0

/-- Line 199 of the source: gflops = (2 * (size ** 3)) / (t * 1e9). A
zero-duration trial makes the divisor zero, so the expression raises
ZeroDivisionError. -/
def gflopsOf (size : ℕ) (t : ℚ) : Except String ℚ :=
  pyDiv (2 * (size : ℚ) ^ 3) (t * 10 ^ 9)

/-- Elapsed wall-clock time of each timed trial: trial r reads time.time()
immediately before (reading 2r) and after (reading 2r+1) its multiplication
and records the difference. The clock is an explicit oracle for the
successive time.time() values observed by the timed loop. -/
def trialTimes (clock : ℕ → ℚ) (runs : ℕ) : List ℚ :=
  (List.range runs).map fun r => clock (2 * r + 1) - clock (2 * r)

/-- Per-trial gflops accumulation of the timed loop (lines 191-201): the
loop is cut short by the exception of the first zero-duration trial. -/
def mapGflops (size : ℕ) : List ℚ → Except String (List ℚ)
  | [] => .ok []
  | t :: rest => do
    let g ← gflopsOf size t
    let gs ← mapGflops size rest
    return g :: gs

/-- Mirror of the BenchSummary dataclass. -/
structure BenchSummary where
  device : String
  size : ℕ
  runs : ℕ
  times_s : List ℚ
  gflops : List ℚ
  time_avg_s : ℚ
  time_best_s : ℚ
  gflops_avg : ℚ
  gflops_best : ℚ
  deriving DecidableEq, Repr

/-- Translation of torch_matmul_bench (lines 188-213): collect the per-trial
elapsed times and throughputs, then build the summary whose keyword
arguments are evaluated left to right — sum(times)/len(times) first (the
division that fails on an empty trial list), then min(times), then the
throughput average and max. Allocation and warm-up do not affect the
returned value and are covered by the event-trace model below. -/
def torch_matmul_bench (device : String) (size runs : ℕ) (clock : ℕ → ℚ) :
    Except String BenchSummary := do
  let times := trialTimes clock runs
  let gfs ← mapGflops size times
  let time_avg ← pyDiv (listSum times) (times.length : ℚ)
  let time_best ← pyMin times
  let gflops_avg ← pyDiv (listSum gfs) (gfs.length : ℚ)
  let gflops_best ← pyMax gfs
  return ⟨device, size, runs, times, gfs, time_avg, time_best, gflops_avg, gflops_best⟩

lemma ok_bind {α β : Type} (a : α) (f : α → Except String β) :
    (Except.ok a >>= f) = f a := rfl

lemma error_bind {α β : Type} (e : String) (f : α → Except String β) :
    (Except.error e >>= f) = .error e := rfl

lemma foldl_min_mem (xs : List ℚ) : ∀ a : ℚ, xs.foldl min a = a ∨ xs.foldl min a ∈ xs := by
  induction xs with
  | nil => intro a; left; rfl
  | cons y ys ih =>
    intro a
    simp only [List.foldl_cons]
    rcases ih (min a y) with h | h
    · rcases min_choice a y with hm | hm
      · left; rw [h, hm]
      · right; rw [h, hm]; exact List.mem_cons_self _ _
    · right; exact List.mem_cons_of_mem _ h

lemma foldl_min_le (xs : List ℚ) :
    ∀ a : ℚ, xs.foldl min a ≤ a ∧ ∀ x ∈ xs, xs.foldl min a ≤ x := by
  induction xs with
  | nil => intro a; exact ⟨le_refl a, by simp⟩
  | cons y ys ih =>
    intro a
    simp only [List.foldl_cons]
    obtain ⟨h1, h2⟩ := ih (min a y)
    refine ⟨le_trans h1 (min_le_left _ _), ?_⟩
    intro x hx
    rcases List.mem_cons.mp hx with rfl | hx
    · exact le_trans h1 (min_le_right _ _)
    · exact h2 x hx

lemma foldl_max_mem (xs : List ℚ) : ∀ a : ℚ, xs.foldl max a = a ∨ xs.foldl max a ∈ xs := by
  induction xs with
  | nil => intro a; left; rfl
  | cons y ys ih =>
    intro a
    simp only [List.foldl_cons]
    rcases ih (max a y) with h | h
    · rcases max_choice a y with hm | hm
      · left; rw [h, hm]
      · right; rw [h, hm]; exact List.mem_cons_self _ _
    · right; exact List.mem_cons_of_mem _ h

lemma foldl_max_ge (xs : List ℚ) :
    ∀ a : ℚ, a ≤ xs.foldl max a ∧ ∀ x ∈ xs, x ≤ xs.foldl max a := by
  induction xs with
  | nil => intro a; exact ⟨le_refl a, by simp⟩
  | cons y ys ih =>
    intro a
    simp only [List.foldl_cons]
    obtain ⟨h1, h2⟩ := ih (max a y)
    refine ⟨le_trans (le_max_left _ _) h1, ?_⟩
    intro x hx
    rcases List.mem_cons.mp hx with rfl | hx
    · exact le_trans (le_max_right _ _) h1
    · exact h2 x hx

lemma pyMin_spec (xs : List ℚ) (h : xs ≠ []) :
    ∃ m, pyMin xs = .ok m ∧ m ∈ xs ∧ ∀ x ∈ xs, m ≤ x := by
  match xs with
  | [] => exact absurd rfl h
  | x :: rest =>
    refine ⟨rest.foldl min x, rfl, ?_, ?_⟩
    · rcases foldl_min_mem rest x with h1 | h1
      · rw [h1]; exact List.mem_cons_self _ _
      · exact List.mem_cons_of_mem _ h1
    · intro t ht
      obtain ⟨h1, h2⟩ := foldl_min_le rest x
      rcases List.mem_cons.mp ht with rfl | ht
      · exact h1
      · exact h2 t ht

lemma pyMax_spec (xs : List ℚ) (h : xs ≠ []) :
    ∃ m, pyMax xs = .ok m ∧ m ∈ xs ∧ ∀ x ∈ xs, x ≤ m := by
  match xs with
  | [] => exact absurd rfl h
  | x :: rest =>
    refine ⟨rest.foldl max x, rfl, ?_, ?_⟩
    · rcases foldl_max_mem rest x with h1 | h1
      · rw [h1]; exact List.mem_cons_self _ _
      · exact List.mem_cons_of_mem _ h1
    · intro t ht
      obtain ⟨h1, h2⟩ := foldl_max_ge rest x
      rcases List.mem_cons.mp ht with rfl | ht
      · exact h1
      · exact h2 t ht

lemma mapGflops_ok (size : ℕ) (xs : List ℚ) (h : ∀ t ∈ xs, 0 < t) :
    mapGflops size xs = .ok (xs.map fun t => 2 * (size : ℚ) ^ 3 / (t * 10 ^ 9)) := by
  induction xs with
  | nil => rfl
  | cons t rest ih =>
    have ht0 : 0 < t := h t (List.mem_cons_self _ _)
    have ht : ¬(t * 10 ^ 9 = 0) := by positivity
    simp [mapGflops, gflopsOf, pyDiv, ht, ih fun x hx => h x (List.mem_cons_of_mem _ hx),
      ok_bind]

lemma length_trialTimes (clock : ℕ → ℚ) (runs : ℕ) :
    (trialTimes clock runs).length = runs := by
  simp [trialTimes]

lemma trialTimes_pos (clock : ℕ → ℚ) (runs : ℕ)
    (hadv : ∀ r < runs, clock (2 * r) < clock (2 * r + 1)) :
    ∀ t ∈ trialTimes clock runs, 0 < t := by
  intro t ht
  simp only [trialTimes, List.mem_map, List.mem_range] at ht
  obtain ⟨r, hr, rfl⟩ := ht
  exact sub_pos.mpr (hadv r hr)

lemma bench_ok (device : String) (size runs : ℕ) (clock : ℕ → ℚ)
    (hruns : 1 ≤ runs)
    (hpos : ∀ t ∈ trialTimes clock runs, 0 < t) :
    ∃ s, torch_matmul_bench device size runs clock = .ok s ∧
      s.device = device ∧ s.size = size ∧ s.runs = runs ∧
      s.times_s = trialTimes clock runs ∧
      s.gflops = (trialTimes clock runs).map (fun t => 2 * (size : ℚ) ^ 3 / (t * 10 ^ 9)) ∧
      s.time_avg_s = listSum s.times_s / (s.times_s.length : ℚ) ∧
      s.time_best_s ∈ s.times_s ∧ (∀ t ∈ s.times_s, s.time_best_s ≤ t) ∧
      s.gflops_best ∈ s.gflops ∧ (∀ g ∈ s.gflops, g ≤ s.gflops_best) := by
  have hlen : (trialTimes clock runs).length = runs := length_trialTimes clock runs
  have hne : trialTimes clock runs ≠ [] := by
    intro h0
    rw [h0] at hlen
    simp at hlen
    omega
  have hmap := mapGflops_ok size (trialTimes clock runs) hpos
  have hglen : ((trialTimes clock runs).map
      (fun t => 2 * (size : ℚ) ^ 3 / (t * 10 ^ 9))).length = runs := by
    rw [List.length_map, hlen]
  have hlenne : ((trialTimes clock runs).length : ℚ) ≠ 0 := by
    rw [hlen]; exact_mod_cast by omega
  have hglenne : (((trialTimes clock runs).map
      (fun t => 2 * (size : ℚ) ^ 3 / (t * 10 ^ 9))).length : ℚ) ≠ 0 := by
    rw [hglen]; exact_mod_cast by omega
  have hgne : (trialTimes clock runs).map
      (fun t => 2 * (size : ℚ) ^ 3 / (t * 10 ^ 9)) ≠ [] := by
    intro h0
    rw [h0] at hglen
    simp at hglen
    omega
  obtain ⟨m, hm, hmmem, hmle⟩ := pyMin_spec _ hne
  obtain ⟨M, hM, hMmem, hMge⟩ := pyMax_spec _ hgne
  refine ⟨⟨device, size, runs, trialTimes clock runs,
      (trialTimes clock runs).map (fun t => 2 * (size : ℚ) ^ 3 / (t * 10 ^ 9)),
      listSum (trialTimes clock runs) / ((trialTimes clock runs).length : ℚ), m,
      listSum ((trialTimes clock runs).map (fun t => 2 * (size : ℚ) ^ 3 / (t * 10 ^ 9))) /
        (((trialTimes clock runs).map (fun t => 2 * (size : ℚ) ^ 3 / (t * 10 ^ 9))).length : ℚ),
      M⟩, ?_, rfl, rfl, rfl, rfl, rfl, rfl, hmmem, hmle, hMmem, hMge⟩
  simp only [torch_matmul_bench, hmap, ok_bind, pyDiv, if_neg hlenne, if_neg hglenne, hm, hM]
  rfl

/-- Claim C1: for every non-empty sequence of timed trials (at least one
run, each with positive elapsed time), the summary has runs equal to the
number of samples, time_avg_s equal to the arithmetic mean of the elapsed
times, time_best_s equal to their minimum, and gflops_best equal to the
maximum of the per-trial throughputs. -/
theorem C1_summary_invariants (device : String) (size runs : ℕ) (clock : ℕ → ℚ)
    (hruns : 1 ≤ runs)
    (hadv : ∀ r < runs, clock (2 * r) < clock (2 * r + 1)) :
    ∃ s, torch_matmul_bench device size runs clock = .ok s ∧
      s.runs = s.times_s.length ∧
      s.time_avg_s = listSum s.times_s / (s.times_s.length : ℚ) ∧
      (s.time_best_s ∈ s.times_s ∧ ∀ t ∈ s.times_s, s.time_best_s ≤ t) ∧
      s.gflops = s.times_s.map (fun t => 2 * (size : ℚ) ^ 3 / (t * 10 ^ 9)) ∧
      (s.gflops_best ∈ s.gflops ∧ ∀ g ∈ s.gflops, g ≤ s.gflops_best) := by
  obtain ⟨s, hok, hdev, hsz, hruns2, htimes, hgfs, havg, hminm, hminle, hmaxm, hmaxge⟩ :=
    bench_ok device size runs clock hruns (trialTimes_pos clock runs hadv)
  refine ⟨s, hok, ?_, havg, ⟨hminm, hminle⟩, ?_, hmaxm, hmaxge⟩
  · rw [hruns2, htimes, length_trialTimes]
  · rw [hgfs, htimes]

/-- Witness for C1 at device "cpu", size 4, two runs, a strictly advancing
integer-valued clock. -/
theorem C1_summary_invariants_witness :
    ∃ s, torch_matmul_bench "cpu" 4 2 (fun n => (n : ℚ)) = .ok s ∧
      s.runs = s.times_s.length ∧
      s.time_avg_s = listSum s.times_s / (s.times_s.length : ℚ) ∧
      (s.time_best_s ∈ s.times_s ∧ ∀ t ∈ s.times_s, s.time_best_s ≤ t) ∧
      s.gflops = s.times_s.map (fun t => 2 * ((4 : ℕ) : ℚ) ^ 3 / (t * 10 ^ 9)) ∧
      (s.gflops_best ∈ s.gflops ∧ ∀ g ∈ s.gflops, g ≤ s.gflops_best) :=
  C1_summary_invariants "cpu" 4 2 (fun n => (n : ℚ)) (by omega)
    (fun r _ => by
      show ((2 * r : ℕ) : ℚ) < ((2 * r + 1 : ℕ) : ℚ)
      exact_mod_cast Nat.lt_succ_self (2 * r))

/-- Counterexample to claim C2 as stated: with a repeat count of 0 the
summarization is reached with an empty trial list and the code evaluates
sum(times)/len(times), i.e. it performs a division by zero (raising
ZeroDivisionError) rather than signalling a usage error before computing
the statistics. -/
theorem C2_counterexample :
    torch_matmul_bench "cpu" 4096 0 (fun _ => 0) = .error "ZeroDivisionError" := by
  simp [torch_matmul_bench, trialTimes, mapGflops, pyDiv, listSum, ok_bind, error_bind]

/-- Claim C2 amended: for every device, size and clock, running with zero
samples does not reject the input up front — the mean computation itself
divides by zero and the run ends with ZeroDivisionError. -/
theorem C2_empty_divides_by_zero (device : String) (size : ℕ) (clock : ℕ → ℚ) :
    torch_matmul_bench device size 0 clock = .error "ZeroDivisionError" := by
  simp [torch_matmul_bench, trialTimes, mapGflops, pyDiv, listSum, ok_bind, error_bind]

/-- Claim C4: for size > 0 and elapsed_seconds > 0 the derived throughput
equals 2 * size^3 / (elapsed_seconds * 1e9), and for fixed size it is
strictly decreasing in elapsed_seconds. -/
theorem C4_throughput_formula_and_antitone (size : ℕ) (t1 t2 : ℚ)
    (hs : 0 < size) (h1 : 0 < t1) (h12 : t1 < t2) :
    gflopsOf size t1 = .ok (2 * (size : ℚ) ^ 3 / (t1 * 10 ^ 9)) ∧
    2 * (size : ℚ) ^ 3 / (t2 * 10 ^ 9) < 2 * (size : ℚ) ^ 3 / (t1 * 10 ^ 9) := by
  have hsq : (0 : ℚ) < (size : ℚ) := by exact_mod_cast hs
  have hnum : (0 : ℚ) < 2 * (size : ℚ) ^ 3 := by positivity
  have hd1 : (0 : ℚ) < t1 * 10 ^ 9 := by positivity
  have hd12 : t1 * 10 ^ 9 < t2 * 10 ^ 9 :=
    mul_lt_mul_of_pos_right h12 (by norm_num)
  refine ⟨?_, div_lt_div_of_pos_left hnum hd1 hd12⟩
  simp [gflopsOf, pyDiv, ne_of_gt hd1]

/-- Witness for C4 at size 1, elapsed times 1 s and 2 s. -/
theorem C4_throughput_formula_and_antitone_witness :
    gflopsOf 1 1 = .ok (2 * ((1 : ℕ) : ℚ) ^ 3 / (1 * 10 ^ 9)) ∧
    2 * ((1 : ℕ) : ℚ) ^ 3 / (2 * 10 ^ 9) < 2 * ((1 : ℕ) : ℚ) ^ 3 / (1 * 10 ^ 9) :=
  C4_throughput_formula_and_antitone 1 1 2 (by omega) (by norm_num) (by norm_num)

/-- Counterexample to claim C6 as stated: at device "cpu", size 128,
repeat count 3 — the claim's own example — a clock that does not advance
makes every trial zero-length, and the run raises ZeroDivisionError in the
throughput computation instead of returning 3 samples with positive
elapsed times. -/
theorem C6_counterexample :
    torch_matmul_bench "cpu" 128 3 (fun _ => 0) = .error "ZeroDivisionError" := by
  simp [torch_matmul_bench, trialTimes, mapGflops, gflopsOf, pyDiv, listSum, ok_bind,
    error_bind, List.range_succ]

/-- Claim C6 amended: for every device and size, repeat_count ≥ 1, and a
clock that strictly advances during each timed trial, the run returns
exactly repeat_count samples, each with positive elapsed time (when the
clock fails to advance during a trial the run instead raises
ZeroDivisionError, as the counterexample shows). -/
theorem C6_sample_count_and_positivity (device : String) (size runs : ℕ) (clock : ℕ → ℚ)
    (hruns : 1 ≤ runs)
    (hadv : ∀ r < runs, clock (2 * r) < clock (2 * r + 1)) :
    ∃ s, torch_matmul_bench device size runs clock = .ok s ∧
      s.times_s.length = runs ∧ ∀ t ∈ s.times_s, 0 < t := by
  obtain ⟨s, hok, _, _, _, htimes, _, _, _, _, _, _⟩ :=
    bench_ok device size runs clock hruns (trialTimes_pos clock runs hadv)
  refine ⟨s, hok, ?_, ?_⟩
  · rw [htimes, length_trialTimes]
  · rw [htimes]; exact trialTimes_pos clock runs hadv

/-- Witness for C6 at device "cpu", size 128, repeat count 3, a strictly
advancing clock. -/
theorem C6_sample_count_and_positivity_witness :
    ∃ s, torch_matmul_bench "cpu" 128 3 (fun n => (n : ℚ)) = .ok s ∧
      s.times_s.length = 3 ∧ ∀ t ∈ s.times_s, 0 < t :=
  C6_sample_count_and_positivity "cpu" 128 3 (fun n => (n : ℚ)) (by omega)
    (fun r _ => by
      show ((2 * r : ℕ) : ℚ) < ((2 * r + 1 : ℕ) : ℚ)
      exact_mod_cast Nat.lt_succ_self (2 * r))

/-- Observable events of one invocation, in program order: the argparse
rejection of a bad --device value, output-directory creation, the system
snapshot, the two torch.randn buffer allocations, untimed (warm-up) and
timed multiplications, torch.cuda.synchronize barriers, time.time() reads,
the memory-stats query and the three report files. -/
inductive Ev
  | argparseReject
  | ensureDir
  | snapshotProbe
  | alloc (device : String) (size : ℤ)
  | matmul (timed : Bool)
  | syncBarrier
  | clockRead
  | memStats
  | writeJson
  | writeCsv
  deriving DecidableEq, Repr

/-- Body of one warm-up iteration (lines 183-186): an untimed matmul, then
a synchronization barrier only when the device type is cuda. -/
def warmupIter (device : String) : List Ev :=
  [Ev.matmul false] ++ if device = "cuda" then [Ev.syncBarrier] else []

/-- Body of one timed iteration (lines 191-196): read the clock, multiply,
synchronize only when the device type is cuda, read the clock again. -/
def timedIter (device : String) : List Ev :=
  [Ev.clockRead, Ev.matmul true] ++
  (if device = "cuda" then [Ev.syncBarrier] else []) ++ [Ev.clockRead]

/-- Events of a counted loop: the body trace repeated n times. -/
def repTrace (body : List Ev) : ℕ → List Ev
  | 0 => []
  | n + 1 => body ++ repTrace body n

/-- Event trace of torch_matmul_bench (lines 177-213): allocate the two
buffers, run exactly 2 warm-up iterations, then the timed iterations. -/
def benchTrace (device : String) (size : ℤ) (runs : ℕ) : List Ev :=
  [Ev.alloc device size, Ev.alloc device size] ++
  repTrace (warmupIter device) 2 ++ repTrace (timedIter device) runs

/-- Choices accepted by the --device argument (line 275). -/
def deviceChoices : List String := ["auto", "cuda", "mps", "cpu"]

/-- Event trace of main (lines 273-324): argparse rejects a --device value
outside its choices before anything else runs; --size and --runs are parsed
as plain ints with no bound check; then the output directory is created,
the snapshot taken, the device resolved, the benchmark run (buffer
allocation first), and finally the memory query and the three report
files. A negative --runs makes range(runs) empty, hence toNat. -/
def mainTrace (env : TorchEnv) (device : String) (size runs : ℤ) : List Ev :=
  if device ∉ deviceChoices then [Ev.argparseReject]
  else
    [Ev.ensureDir, Ev.snapshotProbe] ++
    benchTrace (pick_device env device) size runs.toNat ++
    [Ev.memStats, Ev.writeJson, Ev.writeCsv, Ev.writeCsv]

lemma mem_repTrace {x : Ev} {body : List Ev} : ∀ {n : ℕ}, x ∈ repTrace body n → x ∈ body := by
  intro n
  induction n with
  | zero => intro h; exact absurd h (List.not_mem_nil x)
  | succ n ih =>
    intro h
    rcases List.mem_append.mp h with h | h
    · exact h
    · exact ih h

lemma reject_not_mem_benchTrace (device : String) (size : ℤ) (runs : ℕ) :
    Ev.argparseReject ∉ benchTrace device size runs := by
  intro h
  rcases List.mem_append.mp h with h | h
  · rcases List.mem_append.mp h with h | h
    · simp at h
    · have := mem_repTrace h
      by_cases hd : device = "cuda" <;> simp [warmupIter, hd] at this
  · have := mem_repTrace h
    by_cases hd : device = "cuda" <;> simp [timedIter, hd] at this

/-- Counterexample to claim C3 as stated: at --device cpu --size 0 --runs 3
(a non-positive size) the configuration is not rejected — the trace reaches
the buffer allocations and contains no argparse rejection. -/
theorem C3_counterexample :
    Ev.alloc "cpu" 0 ∈ mainTrace ⟨false, false, false, ([], none)⟩ "cpu" 0 3 ∧
    Ev.argparseReject ∉ mainTrace ⟨false, false, false, ([], none)⟩ "cpu" 0 3 := by
  decide

/-- Claim C3 amended: an invalid device name is rejected by the argument
parser before anything runs, but non-positive size or repeat_count is not
validated — for every accepted device name the run proceeds to buffer
allocation whatever the values of size and runs. -/
theorem C3_only_device_validated (env : TorchEnv) (device : String) (size runs : ℤ) :
    (device ∉ deviceChoices → mainTrace env device size runs = [Ev.argparseReject]) ∧
    (device ∈ deviceChoices →
      Ev.alloc (pick_device env device) size ∈ mainTrace env device size runs ∧
      Ev.argparseReject ∉ mainTrace env device size runs) := by
  constructor
  · intro h
    simp [mainTrace, h]
  · intro h
    constructor
    · simp [mainTrace, h, benchTrace]
    · intro hmem
      simp only [mainTrace, h, not_true_eq_false, if_neg, ite_not, if_true] at hmem
      have : Ev.argparseReject ∈ ([Ev.ensureDir, Ev.snapshotProbe] : List Ev) ∨
          Ev.argparseReject ∈ benchTrace (pick_device env device) size runs.toNat ∨
          Ev.argparseReject ∈ ([Ev.memStats, Ev.writeJson, Ev.writeCsv, Ev.writeCsv] : List Ev) := by
        rcases List.mem_append.mp hmem with h1 | h1
        · rcases List.mem_append.mp h1 with h2 | h2
          · exact Or.inl h2
          · exact Or.inr (Or.inl h2)
        · exact Or.inr (Or.inr h1)
      rcases this with h1 | h1 | h1
      · simp at h1
      · exact reject_not_mem_benchTrace _ _ _ h1
      · simp at h1

/-- Witness for C3 amended: an invalid device name "gpu" is rejected, and
the accepted name "cpu" reaches allocation even with size -1 and runs 0. -/
theorem C3_only_device_validated_witness :
    mainTrace ⟨false, false, false, ([], none)⟩ "gpu" 4096 3 = [Ev.argparseReject] ∧
    Ev.alloc (pick_device ⟨false, false, false, ([], none)⟩ "cpu") (-1) ∈
      mainTrace ⟨false, false, false, ([], none)⟩ "cpu" (-1) 0 :=
  ⟨(C3_only_device_validated ⟨false, false, false, ([], none)⟩ "gpu" 4096 3).1 (by decide),
   ((C3_only_device_validated ⟨false, false, false, ([], none)⟩ "cpu" (-1) 0).2 (by decide)).1⟩

/-- Claim C9 evaluated at the failing input (device "mps", one timed run):
exactly 2 untimed warm-up multiplications precede the timed trial, but the
timed multiplication is followed directly by the closing clock read — no
synchronization barrier occurs anywhere in the mps trace, although mps is
an asynchronous accelerator. The barrier is emitted only when the device
type is cuda (lines 185-186 and 194-195). -/
theorem C9_mps_never_synchronized :
    benchTrace "mps" 4096 1 =
      [Ev.alloc "mps" 4096, Ev.alloc "mps" 4096, Ev.matmul false, Ev.matmul false,
       Ev.clockRead, Ev.matmul true, Ev.clockRead] ∧
    Ev.syncBarrier ∉ benchTrace "mps" 4096 1 ∧
    benchTrace "cuda" 4096 1 =
      [Ev.alloc "cuda" 4096, Ev.alloc "cuda" 4096, Ev.matmul false, Ev.syncBarrier,
       Ev.matmul false, Ev.syncBarrier,
       Ev.clockRead, Ev.matmul true, Ev.syncBarrier, Ev.clockRead] := by
  decide

/-- Round half to even at two decimal places — the behaviour of Python
round(x, 2); floats are modelled as exact rationals throughout. -/
def round2 (q : ℚ) : ℚ :=
  let x := q * 100
  let f : ℤ := Int.floor x
  let r := x - f
  (if r < 1 / 2 then (f : ℚ)
   else if 1 / 2 < r then (f : ℚ) + 1
   else if f % 2 = 0 then (f : ℚ) else (f : ℚ) + 1) / 100

/-- Translation of bytes_to_gb (lines 60-61). -/
def bytes_to_gb (n : ℤ) : ℚ := round2 ((n : ℚ) / 1024 ^ 3)

/-- Host facts and fallible psutil probe results consumed by
get_system_snapshot: identity strings read from platform/sys/torch, the
optional cuda version string, whether psutil imported, and the outcomes of
the virtual-memory query (total and available bytes) and the cpu-count
query (logical and physical counts, each of which psutil may itself report
as None) — error means the query raised. -/
structure ProbeEnv where
  timestamp : String
  os : String
  os_release : String
  arch : String
  python : String
  torch_ver : String
  cuda_version : Option String
  psutil_present : Bool
  vm_query : Except String (ℤ × ℤ)
  cpu_query : Except String (Option ℤ × Option ℤ)

/-- Mirror of the SystemSnapshot dataclass (the torch field holds the torch
version string). -/
structure SystemSnapshot where
  timestamp : String
  os : String
  os_release : String
  arch : String
  python : String
  torch : String
  cuda_available : Bool
  mps_available : Bool
  cuda_version : Option String
  cpu_logical : Option ℤ
  cpu_physical : Option ℤ
  ram_total_gb : Option ℚ
  ram_available_gb : Option ℚ
  gpus : List GPUInfo
  deriving DecidableEq, Repr

/-- Translation of get_gpus (lines 115-126): with cuda available the
enumeration loop fills the list, and an exception raised partway keeps the
entries appended so far and adds one error-sentinel entry whose memory and
capability are absent; otherwise a present-and-available mps backend
contributes one fixed descriptor; otherwise the list is empty. -/
def get_gpus (env : TorchEnv) : List GPUInfo :=
  if env.cuda_available then
    match env.cuda_enum with
    | (gs, none) => gs
    | (gs, some e) => gs ++ [⟨"<error: " ++ e, none, none⟩]
  else if env.mps_attr && env.mps_available then
    [⟨"Apple MPS (Metal)", none, none⟩]
  else []

/-- Translation of get_system_snapshot (lines 129-163): when psutil is
absent or a psutil query raises, the corresponding fields stay None and
collection proceeds; the accelerator list comes from get_gpus. The mps
flag at line 156 reads torch.backends.mps.is_available via getattr; the
model takes the torch.backends.mps module itself to exist (torch ≥ 1.12),
so the getattr yields the availability flag. -/
def get_system_snapshot (env : ProbeEnv) (tenv : TorchEnv) : SystemSnapshot :=
  let ram : Option ℚ × Option ℚ :=
    if env.psutil_present then
      match env.vm_query with
      | .ok (t, a) => (some (bytes_to_gb t), some (bytes_to_gb a))
      | .error _ => (none, none)
    else (none, none)
  let cpu : Option ℤ × Option ℤ :=
    if env.psutil_present then
      match env.cpu_query with
      | .ok c => c
      | .error _ => (none, none)
    else (none, none)
  { timestamp := env.timestamp
    os := env.os
    os_release := env.os_release
    arch := env.arch
    python := env.python
    torch := env.torch_ver
    cuda_available := tenv.cuda_available
    mps_available := tenv.mps_available
    cuda_version := env.cuda_version
    cpu_logical := cpu.1
    cpu_physical := cpu.2
    ram_total_gb := ram.1
    ram_available_gb := ram.2
    gpus := get_gpus tenv }

/-- Claim C7: the snapshot is a total function of the probe outcomes — it
never raises — and every failing optional sub-query (or the absence of
psutil) leaves the corresponding fields at their absent sentinel: the RAM
fields None when the memory query fails, the core-count fields None when
the cpu query fails, and a failed accelerator enumeration degrades to the
entries collected so far plus one error-sentinel entry with absent memory
and capability. -/
theorem C7_graceful_degradation (env : ProbeEnv) (tenv : TorchEnv) :
    (env.psutil_present = false ∨ (∃ e, env.vm_query = .error e) →
      (get_system_snapshot env tenv).ram_total_gb = none ∧
      (get_system_snapshot env tenv).ram_available_gb = none) ∧
    (env.psutil_present = false ∨ (∃ e, env.cpu_query = .error e) →
      (get_system_snapshot env tenv).cpu_logical = none ∧
      (get_system_snapshot env tenv).cpu_physical = none) ∧
    (∀ gs e, tenv.cuda_available = true → tenv.cuda_enum = (gs, some e) →
      (get_system_snapshot env tenv).gpus = gs ++ [⟨"<error: " ++ e, none, none⟩]) := by
  refine ⟨fun h => ?_, fun h => ?_, fun gs e hc he => ?_⟩
  · rcases h with h | ⟨e, h⟩ <;> simp [get_system_snapshot, h]
  · rcases h with h | ⟨e, h⟩ <;> simp [get_system_snapshot, h]
  · simp [get_system_snapshot, get_gpus, hc, he]

/-- Witness for C7 at an environment where psutil is absent, both psutil
queries would raise, and the cuda enumeration raises after one entry. -/
theorem C7_graceful_degradation_witness :
    (get_system_snapshot
        ⟨"t", "Linux", "6.1", "x86_64", "3.11", "2.4", none, false, .error "vm", .error "cpu"⟩
        ⟨true, false, false, ([⟨"A100", some 40, some "8.0"⟩], some "boom")⟩).ram_total_gb
        = none ∧
    (get_system_snapshot
        ⟨"t", "Linux", "6.1", "x86_64", "3.11", "2.4", none, false, .error "vm", .error "cpu"⟩
        ⟨true, false, false, ([⟨"A100", some 40, some "8.0"⟩], some "boom")⟩).cpu_logical
        = none ∧
    (get_system_snapshot
        ⟨"t", "Linux", "6.1", "x86_64", "3.11", "2.4", none, false, .error "vm", .error "cpu"⟩
        ⟨true, false, false, ([⟨"A100", some 40, some "8.0"⟩], some "boom")⟩).gpus
        = [⟨"A100", some 40, some "8.0"⟩] ++ [⟨"<error: " ++ "boom", none, none⟩] :=
  ⟨((C7_graceful_degradation _ _).1 (Or.inl rfl)).1,
   ((C7_graceful_degradation _ _).2.1 (Or.inl rfl)).1,
   (C7_graceful_degradation _ _).2.2 [⟨"A100", some 40, some "8.0"⟩] "boom" rfl rfl⟩

/-- JSON value tree. write_json renders this tree as text; json.dump emits
Python floats with round-tripping precision, so a rational number models a
serialized float losslessly and the text rendering of the tree is a
faithful stand-in for the file contents. -/
inductive J
  | null
  | jbool (b : Bool)
  | num (q : ℚ)
  | str (s : String)
  | arr (xs : List J)
  | obj (fields : List (String × J))

/-- Mirror of the BenchRun dataclass. -/
structure BenchRun where
  run_idx : ℕ
  device : String
  size : ℕ
  time_s : ℚ
  gflops : ℚ

/-- The bench sub-object of the persisted document (main lines 305-314). -/
structure BenchObj where
  device : String
  size : ℕ
  runs : ℕ
  time_avg_s : ℚ
  time_best_s : ℚ
  gflops_avg : ℚ
  gflops_best : ℚ
  per_run : List BenchRun

/-- The report composition root assembled at main lines 301-315 and handed
to write_json: timestamp, the snapshot as a nested object, the free-form
memory-stats object, and the bench object. -/
structure Report where
  timestamp : String
  system : SystemSnapshot
  memory : List (String × J)
  bench : BenchObj

def optNumToJ : Option ℚ → J
  | none => J.null
  | some q => J.num q

def optStrToJ : Option String → J
  | none => J.null
  | some s => J.str s

def optIntToJ : Option ℤ → J
  | none => J.null
  | some i => J.num (i : ℚ)

/-- Serialization of one GPUInfo entry, as asdict renders it. -/
def gpuToJ (g : GPUInfo) : J :=
  J.obj [("name", J.str g.name), ("memory_gb", optNumToJ g.memory_gb),
         ("capability", optStrToJ g.capability)]

/-- Serialization of the snapshot, as asdict renders it (field order is the
dataclass declaration order, preserved by json.dump). -/
def snapToJ (s : SystemSnapshot) : J :=
  J.obj [("timestamp", J.str s.timestamp), ("os", J.str s.os),
         ("os_release", J.str s.os_release), ("arch", J.str s.arch),
         ("python", J.str s.python), ("torch", J.str s.torch),
         ("cuda_available", J.jbool s.cuda_available),
         ("mps_available", J.jbool s.mps_available),
         ("cuda_version", optStrToJ s.cuda_version),
         ("cpu_logical", optIntToJ s.cpu_logical),
         ("cpu_physical", optIntToJ s.cpu_physical),
         ("ram_total_gb", optNumToJ s.ram_total_gb),
         ("ram_available_gb", optNumToJ s.ram_available_gb),
         ("gpus", J.arr (s.gpus.map gpuToJ))]

/-- Serialization of one per-run row (main line 313, via asdict). -/
def runToJ (r : BenchRun) : J :=
  J.obj [("run_idx", J.num (r.run_idx : ℚ)), ("device", J.str r.device),
         ("size", J.num (r.size : ℚ)), ("time_s", J.num r.time_s),
         ("gflops", J.num r.gflops)]

/-- Serialization of the bench sub-object (main lines 305-314). -/
def benchToJ (b : BenchObj) : J :=
  J.obj [("device", J.str b.device), ("size", J.num (b.size : ℚ)),
         ("runs", J.num (b.runs : ℚ)), ("time_avg_s", J.num b.time_avg_s),
         ("time_best_s", J.num b.time_best_s), ("gflops_avg", J.num b.gflops_avg),
         ("gflops_best", J.num b.gflops_best),
         ("per_run", J.arr (b.per_run.map runToJ))]

/-- Serialization of the whole report dict (main lines 301-315), the tree
write_json renders to the summary file. -/
def reportToJ (r : Report) : J :=
  J.obj [("timestamp", J.str r.timestamp), ("system", snapToJ r.system),
         ("memory", J.obj r.memory), ("bench", benchToJ r.bench)]

def strOfJ : J → Option String
  | J.str s => some s
  | _ => none

def boolOfJ : J → Option Bool
  | J.jbool b => some b
  | _ => none

def natOfJ : J → Option ℕ
  | J.num q => if q.den = 1 ∧ 0 ≤ q.num then some q.num.toNat else none
  | _ => none

def numOfJ : J → Option ℚ
  | J.num q => some q
  | _ => none

def optNumOfJ : J → Option (Option ℚ)
  | J.null => some none
  | J.num q => some (some q)
  | _ => none

def optStrOfJ : J → Option (Option String)
  | J.null => some none
  | J.str s => some (some s)
  | _ => none

def optIntOfJ : J → Option (Option ℤ)
  | J.null => some none
  | J.num q => if q.den = 1 then some (some q.num) else none
  | _ => none

def memOfJ : J → Option (List (String × J))
  | J.obj fs => some fs
  | _ => none

/-- Sequencing of element-wise parsing over a JSON array. -/
def mapOption {α β : Type} (f : α → Option β) : List α → Option (List β)
  | [] => some []
  | x :: xs => do
    let y ← f x
    let ys ← mapOption f xs
    return y :: ys

/-- Field access by key in a parsed JSON object. -/
def getF (fs : List (String × J)) (k : String) : Option J := List.lookup k fs

/-- Modelled from the spec: the repository only writes the summary document
and never reads it back, so the parse direction is the evident key-by-key
reading of the document shape fixed in spec §6 ("Persisted document").
Reading one accelerator entry. -/
def gpuOfJ : J → Option GPUInfo
  | J.obj fs => do
    let name ← (getF fs "name").bind strOfJ
    let mem ← (getF fs "memory_gb").bind optNumOfJ
    let cap ← (getF fs "capability").bind optStrOfJ
    return ⟨name, mem, cap⟩
  | _ => none

/-- Modelled from the spec: reading the accelerator array. -/
def gpusOfJ : J → Option (List GPUInfo)
  | J.arr xs => mapOption gpuOfJ xs
  | _ => none

/-- Modelled from the spec: reading the system object of the document. -/
def snapOfJ : J → Option SystemSnapshot
  | J.obj fs => do
    let timestamp ← (getF fs "timestamp").bind strOfJ
    let os ← (getF fs "os").bind strOfJ
    let os_release ← (getF fs "os_release").bind strOfJ
    let arch ← (getF fs "arch").bind strOfJ
    let python ← (getF fs "python").bind strOfJ
    let torchv ← (getF fs "torch").bind strOfJ
    let cuda_available ← (getF fs "cuda_available").bind boolOfJ
    let mps_available ← (getF fs "mps_available").bind boolOfJ
    let cuda_version ← (getF fs "cuda_version").bind optStrOfJ
    let cpu_logical ← (getF fs "cpu_logical").bind optIntOfJ
    let cpu_physical ← (getF fs "cpu_physical").bind optIntOfJ
    let ram_total_gb ← (getF fs "ram_total_gb").bind optNumOfJ
    let ram_available_gb ← (getF fs "ram_available_gb").bind optNumOfJ
    let gpus ← (getF fs "gpus").bind gpusOfJ
    return ⟨timestamp, os, os_release, arch, python, torchv, cuda_available,
      mps_available, cuda_version, cpu_logical, cpu_physical, ram_total_gb,
      ram_available_gb, gpus⟩
  | _ => none

/-- Modelled from the spec: reading one per_run row of the document. -/
def runOfJ : J → Option BenchRun
  | J.obj fs => do
    let run_idx ← (getF fs "run_idx").bind natOfJ
    let device ← (getF fs "device").bind strOfJ
    let size ← (getF fs "size").bind natOfJ
    let time_s ← (getF fs "time_s").bind numOfJ
    let gflops ← (getF fs "gflops").bind numOfJ
    return ⟨run_idx, device, size, time_s, gflops⟩
  | _ => none

/-- Modelled from the spec: reading the per_run array. -/
def runsOfJ : J → Option (List BenchRun)
  | J.arr xs => mapOption runOfJ xs
  | _ => none

/-- Modelled from the spec: reading the bench object of the document. -/
def benchOfJ : J → Option BenchObj
  | J.obj fs => do
    let device ← (getF fs "device").bind strOfJ
    let size ← (getF fs "size").bind natOfJ
    let runs ← (getF fs "runs").bind natOfJ
    let time_avg_s ← (getF fs "time_avg_s").bind numOfJ
    let time_best_s ← (getF fs "time_best_s").bind numOfJ
    let gflops_avg ← (getF fs "gflops_avg").bind numOfJ
    let gflops_best ← (getF fs "gflops_best").bind numOfJ
    let per_run ← (getF fs "per_run").bind runsOfJ
    return ⟨device, size, runs, time_avg_s, time_best_s, gflops_avg,
      gflops_best, per_run⟩
  | _ => none

/-- Modelled from the spec: reading the whole persisted document. -/
def reportOfJ : J → Option Report
  | J.obj fs => do
    let timestamp ← (getF fs "timestamp").bind strOfJ
    let system ← (getF fs "system").bind snapOfJ
    let memory ← (getF fs "memory").bind memOfJ
    let bench ← (getF fs "bench").bind benchOfJ
    return ⟨timestamp, system, memory, bench⟩
  | _ => none

lemma mapOption_map {α β : Type} (f : β → Option α) (g : α → β) (xs : List α)
    (h : ∀ x ∈ xs, f (g x) = some x) : mapOption f (xs.map g) = some xs := by
  induction xs with
  | nil => rfl
  | cons x rest ih =>
    simp only [List.map_cons, mapOption, h x (List.mem_cons_self _ _), Option.bind_eq_bind,
      Option.some_bind, ih fun y hy => h y (List.mem_cons_of_mem _ hy)]
    rfl

lemma optNum_roundtrip (o : Option ℚ) : optNumOfJ (optNumToJ o) = some o := by
  cases o <;> rfl

lemma optStr_roundtrip (o : Option String) : optStrOfJ (optStrToJ o) = some o := by
  cases o <;> rfl

lemma optInt_roundtrip (o : Option ℤ) : optIntOfJ (optIntToJ o) = some o := by
  cases o with
  | none => rfl
  | some i => simp [optIntToJ, optIntOfJ, Rat.den_intCast, Rat.num_intCast]

lemma nat_roundtrip (n : ℕ) : natOfJ (J.num (n : ℚ)) = some n := by
  simp [natOfJ, Rat.den_natCast, Rat.num_natCast]

lemma gpu_roundtrip (g : GPUInfo) : gpuOfJ (gpuToJ g) = some g := by
  obtain ⟨n, m, c⟩ := g
  simp [gpuToJ, gpuOfJ, getF, List.lookup, strOfJ, optNum_roundtrip, optStr_roundtrip]

set_option maxHeartbeats 1600000 in
lemma snap_roundtrip (s : SystemSnapshot) : snapOfJ (snapToJ s) = some s := by
  obtain ⟨f1, f2, f3, f4, f5, f6, f7, f8, f9, f10, f11, f12, f13, f14⟩ := s
  simp [snapToJ, snapOfJ, getF, List.lookup, gpusOfJ, strOfJ, boolOfJ,
    optNum_roundtrip, optStr_roundtrip, optInt_roundtrip,
    mapOption_map gpuOfJ gpuToJ f14 fun g _ => gpu_roundtrip g]

lemma run_roundtrip (r : BenchRun) : runOfJ (runToJ r) = some r := by
  obtain ⟨f1, f2, f3, f4, f5⟩ := r
  simp [runToJ, runOfJ, getF, List.lookup, strOfJ, numOfJ, nat_roundtrip]

lemma bench_roundtrip (b : BenchObj) : benchOfJ (benchToJ b) = some b := by
  obtain ⟨f1, f2, f3, f4, f5, f6, f7, f8⟩ := b
  simp [benchToJ, benchOfJ, getF, List.lookup, runsOfJ, strOfJ, numOfJ, nat_roundtrip,
    mapOption_map runOfJ runToJ f8 fun r _ => run_roundtrip r]

/-- Claim C8: serializing any Report to the structured document and parsing
the document back reproduces every field of the Report (numbers are exact
rationals here, so the only loss in reality is floating-point
representation, which json.dump round-trips). -/
theorem C8_report_roundtrip (r : Report) : reportOfJ (reportToJ r) = some r := by
  obtain ⟨ts, sys, mem, bench⟩ := r
  simp [reportToJ, reportOfJ, getF, List.lookup, strOfJ, memOfJ, snap_roundtrip,
    bench_roundtrip]

end Bench
